import Mathlib

/-!
A shallow embedding of the data-access and import layer of the
rollcall-server-go repository (package `db`, file modelled from
`src/unnamed/part_000`).

The Redis backend is modelled as an explicit state holding the finitely
many set-valued and hash-valued keys the service touches.  Backend
communication never fails in the model (connectivity failures are an
external concern of the out-of-scope transport layer), so the only
errors the modelled operations can produce are the validation and
format errors raised by the service code itself.  Redis sets are
modelled as duplicate-free insertion-ordered lists; `SRANDMEMBER`'s
random choice is modelled by an explicit `Nat` seed selecting an index
into the member list.
-/

namespace Rollcall

/-- Model of `models.Clazz`: a class record with `id` and `name` fields. -/
structure Clazz where
  ID : String
  Name : String
deriving DecidableEq, Repr

/-- Model of `models.Student`: a student record with `id`, `name`, `classId` fields. -/
structure Student where
  ID : String
  Name : String
  ClassID : String
deriving DecidableEq, Repr

/-- Lookup in an association list with `String` keys. -/
def alookup {α : Type} : List (String × α) → String → Option α
  | [], _ => none
  | (k, v) :: rest, key => if k = key then some v else alookup rest key

/-- Set (insert or overwrite) a key in an association list. -/
def aset {α : Type} : List (String × α) → String → α → List (String × α)
  | [], key, v => [(key, v)]
  | (k, w) :: rest, key, v =>
      if k = key then (key, v) :: rest else (k, w) :: aset rest key v

/-- The Redis database state: set-valued keys and hash-valued keys.
A key absent from the map behaves as the empty set / empty hash,
matching Redis semantics for missing keys. -/
structure RedisState where
  sets : List (String × List String)
  hashes : List (String × List (String × String))
deriving DecidableEq, Repr

/-- The empty database. -/
def emptyState : RedisState := ⟨[], []⟩

/-- The member list stored at a set key (empty if the key is absent). -/
def RedisState.getSet (st : RedisState) (key : String) : List String :=
  (alookup st.sets key).getD []

/-- The field list stored at a hash key (empty if the key is absent). -/
def RedisState.getHash (st : RedisState) (key : String) : List (String × String) :=
  (alookup st.hashes key).getD []

/-- Redis `SADD key member`: add the member to the set if not already present. -/
def sadd (st : RedisState) (key mem : String) : RedisState :=
  let cur := st.getSet key
  if mem ∈ cur then st else { st with sets := aset st.sets key (cur ++ [mem]) }

/-- Redis `SMEMBERS key`. -/
def smembers (st : RedisState) (key : String) : List String :=
  st.getSet key

/-- Redis `SISMEMBER key member`. -/
def sismember (st : RedisState) (key mem : String) : Bool :=
  decide (mem ∈ st.getSet key)

/-- Redis `SRANDMEMBER key`, with the backend's random choice modelled by the
seed `r` picking an index.  Returns `none` when the set is empty or the
key absent (go-redis surfaces that as `redis.Nil`). -/
def srandmember (st : RedisState) (key : String) (r : Nat) : Option String :=
  let s := st.getSet key
  if s.isEmpty then none else some (s.getD (r % s.length) "")

/-- Redis `HMSET key fields`: set each given field, keeping other fields. -/
def hmset (st : RedisState) (key : String) (fields : List (String × String)) :
    RedisState :=
  let merged := fields.foldl (fun h p => aset h p.1 p.2) (st.getHash key)
  { st with hashes := aset st.hashes key merged }

/-- Redis `HGETALL key` (empty list when the key is absent). -/
def hgetall (st : RedisState) (key : String) : List (String × String) :=
  st.getHash key

/-- Go map indexing `data[field]`: missing fields read as `""`. -/
def hfield (data : List (String × String)) (field : String) : String :=
  (alookup data field).getD ""

/-- Constant `classesKey`: the fixed key of the global set of class IDs. -/
def classesKey : String := "classes"

/-- Helper `getClassInfoKey`: `classInfoPrefix + classID` with the prefix `"class:"`. -/
def getClassInfoKey (classID : String) : String :=
  "class:" ++ classID

/-- Helper `getClassStudentsKey`: `classStudentsPrefix + classID + ":students"`
with the prefix `"class:"`. -/
def getClassStudentsKey (classID : String) : String :=
  "class:" ++ classID ++ ":students"

/-- Helper `getStudentInfoKey`: `studentInfoPrefix + studentID` with the prefix
`"student:"`. -/
def getStudentInfoKey (studentID : String) : String :=
  "student:" ++ studentID

/-- Operation `AddClass`: validate, then `SADD` the class ID into the global set and
`HMSET` the class record, as one pipeline.  Returns the new state and the
error, `none` on success. -/
def AddClass (st : RedisState) (clazz : Clazz) : RedisState × Option String :=
  if clazz.ID = "" ∨ clazz.Name = "" then
    (st, some "class ID and Name cannot be empty")
  else
    let classKey := getClassInfoKey clazz.ID
    let st1 := sadd st classesKey clazz.ID
    let st2 := hmset st1 classKey [("id", clazz.ID), ("name", clazz.Name)]
    (st2, none)

/-- Operation `GetClassByID`: `HGETALL` the class record; an empty hash means the
class is absent (`nil, nil` in the Go code). -/
def GetClassByID (st : RedisState) (classID : String) : Option Clazz :=
  let data := hgetall st (getClassInfoKey classID)
  if data.length = 0 then none
  else some { ID := hfield data "id", Name := hfield data "name" }

/-- Operation `GetAllClasses`: `SMEMBERS` of the global class set, resolving each ID
to its record; an ID whose record is absent is skipped. -/
def GetAllClasses (st : RedisState) : List Clazz :=
  (smembers st classesKey).filterMap (GetClassByID st)

/-- Operation `ClassExists`: `SISMEMBER` against the global class set. -/
def ClassExists (st : RedisState) (classID : String) : Bool :=
  sismember st classesKey classID

/-- Operation `AddStudent`: validate; auto-create the class (`"Class " + classId`)
if it does not exist; then `SADD` the student ID into the class's student
set and `HMSET` the student record, as one pipeline. -/
def AddStudent (st : RedisState) (student : Student) : RedisState × Option String :=
  if student.ID = "" ∨ student.Name = "" ∨ student.ClassID = "" then
    (st, some "student ID, Name, and ClassID cannot be empty")
  else
    let afterClass : RedisState × Option String :=
      if ClassExists st student.ClassID then (st, none)
      else AddClass st { ID := student.ClassID, Name := "Class " ++ student.ClassID }
    match afterClass with
    | (st0, some e) =>
        (st0, some ("student's class does not exist and auto-creation failed: " ++ e))
    | (st1, none) =>
        let st2 := sadd st1 (getClassStudentsKey student.ClassID) student.ID
        let st3 := hmset st2 (getStudentInfoKey student.ID)
          [("id", student.ID), ("name", student.Name), ("classId", student.ClassID)]
        (st3, none)

/-- Operation `GetStudentByID`: `HGETALL` the student record; empty hash means absent. -/
def GetStudentByID (st : RedisState) (studentID : String) : Option Student :=
  let data := hgetall st (getStudentInfoKey studentID)
  if data.length = 0 then none
  else some { ID := hfield data "id", Name := hfield data "name",
              ClassID := hfield data "classId" }

/-- Operation `GetStudentsByClassID`: `SMEMBERS` of the class's student set, resolving
each ID to its record; an ID whose record is absent is skipped. -/
def GetStudentsByClassID (st : RedisState) (classID : String) : List Student :=
  (smembers st (getClassStudentsKey classID)).filterMap (GetStudentByID st)

/-- Operation `GetRandomStudent`: `SRANDMEMBER` one ID from the class's student set
(`none` when the set is empty or absent), then resolve it to a record.
The Go code also maps an empty-string member to the absent result. -/
def GetRandomStudent (st : RedisState) (classID : String) (r : Nat) : Option Student :=
  match srandmember st (getClassStudentsKey classID) r with
  | none => none
  | some sid => if sid = "" then none else GetStudentByID st sid

/-- The outcome of handing the uploaded stream to the excelize library,
which is an out-of-scope external collaborator modelled by its interface:
`openFailed` — `excelize.OpenReader` returns an error;
`noSheets` — `f.GetSheetName(0)` returns the empty string;
`rowsFailed` — `f.GetRows(sheetName)` returns an error;
`rows rs` — the ordered rows of the first sheet, each a list of cells. -/
inductive ExcelSource where
  | openFailed
  | noSheets
  | rowsFailed (sheetName : String)
  | rows (rs : List (List String))
deriving DecidableEq, Repr

/-- The three `ExcelSource` outcomes on which the import aborts before
submitting any record (the spec's `FormatError` cases). -/
def ExcelSource.isFormatFailure : ExcelSource → Bool
  | .openFailed => true
  | .noSheets => true
  | .rowsFailed _ => true
  | .rows _ => false

/-- The error message the import returns on each format-failure outcome
(the inner excelize error is elided from the wrapped messages). -/
def ExcelSource.formatMsg : ExcelSource → String
  | .openFailed => "failed to open excel file"
  | .noSheets => "excel file does not contain any sheets"
  | .rowsFailed sheetName => "failed to get rows from sheet " ++ sheetName
  | .rows _ => ""

/-- Step 1 of `ImportStudentsFromExcel`: ensure the target class exists,
auto-creating it with name `"Imported Class " + classID` when absent. -/
def ensureImportClass (st : RedisState) (classID : String) :
    RedisState × Option String :=
  if ClassExists st classID then (st, none)
  else
    match AddClass st { ID := classID, Name := "Imported Class " ++ classID } with
    | (st1, none) => (st1, none)
    | (st1, some e) =>
        (st1, some ("target class does not exist and failed to create it: " ++ e))

/-- The row loop of `ImportStudentsFromExcel`: skip the header row (index 0),
read column 0 as the student ID and column 1 as the name (missing cells read
as `""`), and drop rows whose ID or name is empty. -/
def rowsToStudents (rs : List (List String)) (classID : String) : List Student :=
  (rs.drop 1).filterMap (fun row =>
    if row.getD 0 "" == "" || row.getD 1 "" == "" then none
    else some { ID := row.getD 0 "", Name := row.getD 1 "", ClassID := classID })

/-- The submission loop of `ImportStudentsFromExcel`: submit each candidate
to `AddStudent`; a failed submission is skipped and the loop continues with
the backend state as it then stands; count the successes. -/
def addImported (st : RedisState) : List Student → RedisState × Nat
  | [] => (st, 0)
  | stu :: rest =>
      match AddStudent st stu with
      | (st1, none) =>
          let res := addImported st1 rest
          (res.1, res.2 + 1)
      | (st1, some _) => addImported st1 rest

/-- Operation `ImportStudentsFromExcel`: ensure the class, parse the source, build the
candidate list, submit each candidate, and return the state, the count of
successful submissions, and the error (`none` on success). -/
def ImportStudentsFromExcel (st : RedisState) (file : ExcelSource)
    (classID : String) : RedisState × Nat × Option String :=
  match ensureImportClass st classID with
  | (st0, some e) => (st0, 0, some e)
  | (st1, none) =>
      match file with
      | .rows rs =>
          let res := addImported st1 (rowsToStudents rs classID)
          (res.1, res.2, none)
      | f => (st1, 0, some f.formatMsg)

/-- The class-existence step of `AddStudent`: the state after the
auto-creation check (named here for proof modularity; `AddStudent` inlines
this step). -/
def stepClass (st : RedisState) (cid : String) : RedisState :=
  if ClassExists st cid then st
  else (AddClass st { ID := cid, Name := "Class " ++ cid }).1

/-- The data rows an `ExcelSource` yields (empty for the failure outcomes). -/
def ExcelSource.rowData : ExcelSource → List (List String)
  | .rows rs => rs
  | _ => []

/-- The spec's store invariant on the student index: every student ID in a
class's student set resolves to a student record whose `classId` equals
that class's ID. -/
def StudentIndexInv (st : RedisState) : Prop :=
  ∀ cid sid : String, sid ∈ st.getSet (getClassStudentsKey cid) →
    ∃ stu : Student, GetStudentByID st sid = some stu ∧ stu.ClassID = cid

/-- Decidable per-class form of the student-index condition: every member
of the class's student set is non-empty and resolves to a record whose
`classId` equals the class's ID. -/
def classSetResolves (st : RedisState) (classID : String) : Bool :=
  (st.getSet (getClassStudentsKey classID)).all (fun sid =>
    (!(sid == "")) &&
      match GetStudentByID st sid with
      | some stu => stu.ClassID == classID
      | none => false)

/-- State after adding student `s1` to class `A` starting from the empty
database (used for concrete evaluations). -/
def reAddState1 : RedisState :=
  (AddStudent emptyState { ID := "s1", Name := "n", ClassID := "A" }).1

/-- State after then re-adding the same student ID `s1` under class `B`:
class `A`'s student set still contains `s1`, but the `s1` record now has
`classId = "B"`. -/
def reAddState2 : RedisState :=
  (AddStudent reAddState1 { ID := "s1", Name := "n", ClassID := "B" }).1

/-- A state whose indexes contain the dangling ID `ghost` with no backing
record, alongside a resolvable class `c1` and student `s1` (used to observe
the skip-unresolvable behaviour of the listings). -/
def danglingState : RedisState :=
  { sets := [("classes", ["c1", "ghost"]), ("class:c1:students", ["s1", "ghost"])],
    hashes := [("class:c1", [("id", "c1"), ("name", "M")]),
               ("student:s1", [("id", "s1"), ("name", "A"), ("classId", "c1")])] }

/-! ### Association-list lemmas -/

theorem alookup_aset_self {α : Type} (l : List (String × α)) (k : String) (v : α) :
    alookup (aset l k v) k = some v := by
  induction l with
  | nil => simp [aset, alookup]
  | cons p rest ih =>
      obtain ⟨k1, v1⟩ := p
      by_cases h : k1 = k
      · simp [aset, h, alookup]
      · simp [aset, h, alookup, ih]

theorem alookup_aset_ne {α : Type} (l : List (String × α)) (k k2 : String) (v : α)
    (h : k ≠ k2) : alookup (aset l k v) k2 = alookup l k2 := by
  induction l with
  | nil => simp [aset, alookup, h]
  | cons p rest ih =>
      obtain ⟨k1, v1⟩ := p
      by_cases h1 : k1 = k
      · subst h1
        simp [aset, alookup, h]
      · simp [aset, h1, alookup, ih]

theorem getD_mem_of_lt {α : Type} (l : List α) (i : Nat) (d : α) (h : i < l.length) :
    l.getD i d ∈ l := by
  rw [List.getD_eq_getElem l d h]
  exact List.getElem_mem h

theorem aset_ne_nil {α : Type} (l : List (String × α)) (k : String) (v : α) :
    aset l k v ≠ [] := by
  cases l with
  | nil => simp [aset]
  | cons p rest =>
      obtain ⟨k1, v1⟩ := p
      by_cases h : k1 = k <;> simp [aset, h]

/-! ### Key-scheme lemmas: the four key families and their disjointness -/

theorem getClassInfoKey_ne_getStudentInfoKey (a b : String) :
    getClassInfoKey a ≠ getStudentInfoKey b := by
  intro h
  have hd := congrArg (fun s => s.data.head?) h
  have e1 : (getClassInfoKey a).data.head? = some 'c' := rfl
  have e2 : (getStudentInfoKey b).data.head? = some 's' := rfl
  simp only at hd
  rw [e1, e2] at hd
  simp at hd

theorem getClassStudentsKey_ne_getStudentInfoKey (a b : String) :
    getClassStudentsKey a ≠ getStudentInfoKey b := by
  intro h
  have hd := congrArg (fun s => s.data.head?) h
  have e1 : (getClassStudentsKey a).data.head? = some 'c' := rfl
  have e2 : (getStudentInfoKey b).data.head? = some 's' := rfl
  simp only at hd
  rw [e1, e2] at hd
  simp at hd

theorem classesKey_ne_getStudentInfoKey (b : String) :
    classesKey ≠ getStudentInfoKey b := by
  intro h
  have hd := congrArg (fun s => s.data.head?) h
  have e1 : (classesKey).data.head? = some 'c' := rfl
  have e2 : (getStudentInfoKey b).data.head? = some 's' := rfl
  simp only at hd
  rw [e1, e2] at hd
  simp at hd

theorem classesKey_ne_getClassStudentsKey (a : String) :
    classesKey ≠ getClassStudentsKey a := by
  intro h
  have hl := congrArg String.length h
  have e : (getClassStudentsKey a).length = ("class:").length + a.length + (":students").length := by
    show (("class:" ++ a) ++ ":students").length = _
    rw [String.length_append, String.length_append]
  rw [e] at hl
  have h1 : (classesKey).length = 7 := by decide
  have h2 : ("class:").length = 6 := by decide
  have h3 : (":students").length = 9 := by decide
  omega

theorem getClassStudentsKey_inj (a b : String)
    (h : getClassStudentsKey a = getClassStudentsKey b) : a = b := by
  have hd := congrArg String.data h
  have e1 : (getClassStudentsKey a).data = ("class:".data ++ a.data) ++ ":students".data := rfl
  have e2 : (getClassStudentsKey b).data = ("class:".data ++ b.data) ++ ":students".data := rfl
  rw [e1, e2] at hd
  have hmid := List.append_cancel_right hd
  exact String.ext (List.append_cancel_left hmid)

theorem getStudentInfoKey_inj (a b : String)
    (h : getStudentInfoKey a = getStudentInfoKey b) : a = b := by
  have hd := congrArg String.data h
  have e1 : (getStudentInfoKey a).data = "student:".data ++ a.data := rfl
  have e2 : (getStudentInfoKey b).data = "student:".data ++ b.data := rfl
  rw [e1, e2] at hd
  exact String.ext (List.append_cancel_left hd)

theorem classPlaceholderName_ne_empty (x : String) : "Class " ++ x ≠ "" := by
  intro h
  have hl := congrArg String.length h
  rw [String.length_append] at hl
  have h6 : ("Class ").length = 6 := by decide
  have h0 : ("" : String).length = 0 := by decide
  omega

theorem importPlaceholderName_ne_empty (x : String) : "Imported Class " ++ x ≠ "" := by
  intro h
  have hl := congrArg String.length h
  rw [String.length_append] at hl
  have h6 : ("Imported Class ").length = 15 := by decide
  have h0 : ("" : String).length = 0 := by decide
  omega

/-! ### Primitive-operation lemmas -/

theorem getSet_hmset (st : RedisState) (k : String) (f : List (String × String))
    (k2 : String) : (hmset st k f).getSet k2 = st.getSet k2 := rfl

theorem getHash_sadd (st : RedisState) (k m k2 : String) :
    (sadd st k m).getHash k2 = st.getHash k2 := by
  simp only [sadd, RedisState.getHash]
  split <;> rfl

theorem getSet_sadd_ne (st : RedisState) (k m k2 : String) (h : k ≠ k2) :
    (sadd st k m).getSet k2 = st.getSet k2 := by
  simp only [sadd, RedisState.getSet]
  split
  · rfl
  · rw [alookup_aset_ne _ _ _ _ h]

theorem mem_getSet_sadd_self (st : RedisState) (k m : String) :
    m ∈ (sadd st k m).getSet k := by
  simp only [sadd, RedisState.getSet]
  split
  · next h => exact h
  · rw [alookup_aset_self]
    simp

theorem mem_getSet_sadd (st : RedisState) (k m k2 x : String)
    (h : x ∈ (sadd st k m).getSet k2) : x ∈ st.getSet k2 ∨ (k2 = k ∧ x = m) := by
  by_cases hk : k = k2
  · subst hk
    simp only [sadd, RedisState.getSet] at h
    split at h
    · exact Or.inl h
    · rw [alookup_aset_self] at h
      simp only [Option.getD_some, List.mem_append, List.mem_singleton] at h
      rcases h with h | h
      · exact Or.inl h
      · exact Or.inr ⟨rfl, h⟩
  · rw [getSet_sadd_ne st k m k2 hk] at h
    exact Or.inl h

theorem getSet_sadd_subset (st : RedisState) (k m k2 : String)
    (h : x ∈ st.getSet k2) : x ∈ (sadd st k m).getSet k2 := by
  by_cases hk : k = k2
  · subst hk
    simp only [sadd, RedisState.getSet] at h ⊢
    split
    · exact h
    · rw [alookup_aset_self]
      simp only [Option.getD_some, List.mem_append]
      exact Or.inl h
  · rw [getSet_sadd_ne st k m k2 hk]
    exact h

theorem getHash_hmset_self (st : RedisState) (k : String) (f : List (String × String)) :
    (hmset st k f).getHash k = f.foldl (fun h p => aset h p.1 p.2) (st.getHash k) := by
  simp only [hmset, RedisState.getHash]
  rw [alookup_aset_self]
  rfl

theorem getHash_hmset_ne (st : RedisState) (k : String) (f : List (String × String))
    (k2 : String) (h : k ≠ k2) : (hmset st k f).getHash k2 = st.getHash k2 := by
  simp only [hmset, RedisState.getHash]
  rw [alookup_aset_ne _ _ _ _ h]

theorem hfield_aset_self (l : List (String × String)) (f v : String) :
    hfield (aset l f v) f = v := by
  simp [hfield, alookup_aset_self]

theorem hfield_aset_ne (l : List (String × String)) (f f2 v : String) (h : f ≠ f2) :
    hfield (aset l f v) f2 = hfield l f2 := by
  simp [hfield, alookup_aset_ne _ _ _ _ h]

/-! ### `AddClass` lemmas -/

theorem GetClassByID_congr (st st2 : RedisState) (cid : String)
    (h : st.getHash (getClassInfoKey cid) = st2.getHash (getClassInfoKey cid)) :
    GetClassByID st cid = GetClassByID st2 cid := by
  unfold GetClassByID hgetall
  rw [h]

theorem GetStudentByID_congr (st st2 : RedisState) (sid : String)
    (h : st.getHash (getStudentInfoKey sid) = st2.getHash (getStudentInfoKey sid)) :
    GetStudentByID st sid = GetStudentByID st2 sid := by
  unfold GetStudentByID hgetall
  rw [h]

theorem AddClass_snd_isSome (st : RedisState) (c : Clazz) :
    (AddClass st c).2.isSome = true ↔ (c.ID = "" ∨ c.Name = "") := by
  unfold AddClass
  split
  · next h => simp [h]
  · next h => simp [h]

theorem AddClass_state_of_invalid (st : RedisState) (c : Clazz)
    (h : c.ID = "" ∨ c.Name = "") : (AddClass st c).1 = st := by
  unfold AddClass
  rw [if_pos h]

theorem AddClass_valid_eq (st : RedisState) (c : Clazz)
    (hid : c.ID ≠ "") (hname : c.Name ≠ "") :
    AddClass st c =
      (hmset (sadd st classesKey c.ID) (getClassInfoKey c.ID)
        [("id", c.ID), ("name", c.Name)], none) := by
  unfold AddClass
  rw [if_neg (by simp [hid, hname])]

theorem AddClass_GetClassByID_self (st : RedisState) (c : Clazz)
    (hid : c.ID ≠ "") (hname : c.Name ≠ "") :
    GetClassByID (AddClass st c).1 c.ID = some c := by
  rw [AddClass_valid_eq st c hid hname]
  unfold GetClassByID hgetall
  rw [getHash_hmset_self]
  simp only [List.foldl]
  have hne := aset_ne_nil
    (aset ((sadd st classesKey c.ID).getHash (getClassInfoKey c.ID)) "id" c.ID)
    "name" c.Name
  rw [if_neg (by simpa [List.length_eq_zero] using hne)]
  rw [hfield_aset_ne _ _ _ _ (by decide), hfield_aset_self, hfield_aset_self]

theorem AddClass_getSet_students (st : RedisState) (c : Clazz) (x : String) :
    ((AddClass st c).1).getSet (getClassStudentsKey x) = st.getSet (getClassStudentsKey x) := by
  unfold AddClass
  split
  · rfl
  · rw [getSet_hmset]
    exact getSet_sadd_ne st classesKey c.ID _ (classesKey_ne_getClassStudentsKey x)

theorem AddClass_GetStudentByID (st : RedisState) (c : Clazz) (sid : String) :
    GetStudentByID (AddClass st c).1 sid = GetStudentByID st sid := by
  unfold AddClass
  split
  · rfl
  · refine GetStudentByID_congr _ _ _ ?_
    rw [getHash_hmset_ne _ _ _ _ (getClassInfoKey_ne_getStudentInfoKey c.ID sid)]
    rw [getHash_sadd]

theorem AddClass_mem_classes (st : RedisState) (c : Clazz)
    (hid : c.ID ≠ "") (hname : c.Name ≠ "") :
    c.ID ∈ ((AddClass st c).1).getSet classesKey := by
  rw [AddClass_valid_eq st c hid hname]
  rw [getSet_hmset]
  exact mem_getSet_sadd_self st classesKey c.ID

/-! ### `AddStudent` lemmas -/

theorem AddStudent_valid_eq (st : RedisState) (stu : Student)
    (h1 : stu.ID ≠ "") (h2 : stu.Name ≠ "") (h3 : stu.ClassID ≠ "") :
    AddStudent st stu =
      (hmset (sadd (stepClass st stu.ClassID) (getClassStudentsKey stu.ClassID) stu.ID)
        (getStudentInfoKey stu.ID)
        [("id", stu.ID), ("name", stu.Name), ("classId", stu.ClassID)], none) := by
  unfold AddStudent
  rw [if_neg (by simp [h1, h2, h3])]
  unfold stepClass
  cases hex : ClassExists st stu.ClassID with
  | true => simp only [hex, if_true, reduceIte]
  | false =>
      have hAC : (AddClass st { ID := stu.ClassID, Name := "Class " ++ stu.ClassID }).2 = none := by
        rw [AddClass_valid_eq st _ h3 (classPlaceholderName_ne_empty stu.ClassID)]
      rcases hp : AddClass st { ID := stu.ClassID, Name := "Class " ++ stu.ClassID } with ⟨stA, eA⟩
      rw [hp] at hAC
      simp only at hAC
      subst hAC
      simp only [hex, Bool.false_eq_true, if_false, reduceIte, hp]

theorem AddStudent_state_of_invalid (st : RedisState) (stu : Student)
    (h : stu.ID = "" ∨ stu.Name = "" ∨ stu.ClassID = "") : (AddStudent st stu).1 = st := by
  unfold AddStudent
  rw [if_pos h]

theorem AddStudent_snd_isSome (st : RedisState) (stu : Student) :
    (AddStudent st stu).2.isSome = true ↔
      (stu.ID = "" ∨ stu.Name = "" ∨ stu.ClassID = "") := by
  by_cases hv : stu.ID = "" ∨ stu.Name = "" ∨ stu.ClassID = ""
  · unfold AddStudent
    rw [if_pos hv]
    simp [hv]
  · push_neg at hv
    obtain ⟨h1, h2, h3⟩ := hv
    rw [AddStudent_valid_eq st stu h1 h2 h3]
    simp [h1, h2, h3]

theorem stepClass_getSet_students (st : RedisState) (cid x : String) :
    (stepClass st cid).getSet (getClassStudentsKey x) = st.getSet (getClassStudentsKey x) := by
  unfold stepClass
  split
  · rfl
  · exact AddClass_getSet_students st _ x

theorem stepClass_GetStudentByID (st : RedisState) (cid sid : String) :
    GetStudentByID (stepClass st cid) sid = GetStudentByID st sid := by
  unfold stepClass
  split
  · rfl
  · exact AddClass_GetStudentByID st _ sid

theorem AddStudent_GetStudentByID_self (st : RedisState) (stu : Student)
    (h1 : stu.ID ≠ "") (h2 : stu.Name ≠ "") (h3 : stu.ClassID ≠ "") :
    GetStudentByID (AddStudent st stu).1 stu.ID = some stu := by
  rw [AddStudent_valid_eq st stu h1 h2 h3]
  unfold GetStudentByID hgetall
  rw [getHash_hmset_self]
  simp only [List.foldl]
  have hne := aset_ne_nil
    (aset (aset ((sadd (stepClass st stu.ClassID) (getClassStudentsKey stu.ClassID) stu.ID).getHash
      (getStudentInfoKey stu.ID)) "id" stu.ID) "name" stu.Name) "classId" stu.ClassID
  rw [if_neg (by simpa [List.length_eq_zero] using hne)]
  rw [hfield_aset_ne _ _ _ _ (by decide), hfield_aset_ne _ _ _ _ (by decide),
    hfield_aset_self, hfield_aset_ne _ _ _ _ (by decide), hfield_aset_self,
    hfield_aset_self]

theorem AddStudent_GetStudentByID_other (st : RedisState) (stu : Student) (sid : String)
    (h1 : stu.ID ≠ "") (h2 : stu.Name ≠ "") (h3 : stu.ClassID ≠ "")
    (hne : sid ≠ stu.ID) :
    GetStudentByID (AddStudent st stu).1 sid = GetStudentByID st sid := by
  rw [AddStudent_valid_eq st stu h1 h2 h3]
  have hkeys : getStudentInfoKey stu.ID ≠ getStudentInfoKey sid := by
    intro h
    exact hne (getStudentInfoKey_inj _ _ h).symm
  have hcongr : GetStudentByID
      (hmset (sadd (stepClass st stu.ClassID) (getClassStudentsKey stu.ClassID) stu.ID)
        (getStudentInfoKey stu.ID)
        [("id", stu.ID), ("name", stu.Name), ("classId", stu.ClassID)]) sid
      = GetStudentByID (stepClass st stu.ClassID) sid := by
    refine GetStudentByID_congr _ _ _ ?_
    rw [getHash_hmset_ne _ _ _ _ hkeys, getHash_sadd]
  rw [hcongr, stepClass_GetStudentByID]

theorem AddStudent_GetClassByID (st : RedisState) (stu : Student) (x : String)
    (h1 : stu.ID ≠ "") (h2 : stu.Name ≠ "") (h3 : stu.ClassID ≠ "") :
    GetClassByID (AddStudent st stu).1 x = GetClassByID (stepClass st stu.ClassID) x := by
  rw [AddStudent_valid_eq st stu h1 h2 h3]
  refine GetClassByID_congr _ _ _ ?_
  rw [getHash_hmset_ne _ _ _ _ ((getClassInfoKey_ne_getStudentInfoKey x stu.ID).symm)]
  rw [getHash_sadd]

theorem AddStudent_mem_students_self (st : RedisState) (stu : Student)
    (h1 : stu.ID ≠ "") (h2 : stu.Name ≠ "") (h3 : stu.ClassID ≠ "") :
    stu.ID ∈ ((AddStudent st stu).1).getSet (getClassStudentsKey stu.ClassID) := by
  rw [AddStudent_valid_eq st stu h1 h2 h3]
  rw [getSet_hmset]
  exact mem_getSet_sadd_self _ _ _

theorem AddStudent_mem_students (st : RedisState) (stu : Student) (cid x : String)
    (h1 : stu.ID ≠ "") (h2 : stu.Name ≠ "") (h3 : stu.ClassID ≠ "")
    (h : x ∈ ((AddStudent st stu).1).getSet (getClassStudentsKey cid)) :
    x ∈ st.getSet (getClassStudentsKey cid) ∨ (cid = stu.ClassID ∧ x = stu.ID) := by
  rw [AddStudent_valid_eq st stu h1 h2 h3] at h
  rw [getSet_hmset] at h
  rcases mem_getSet_sadd _ _ _ _ _ h with h | ⟨hk, hx⟩
  · rw [stepClass_getSet_students] at h
    exact Or.inl h
  · exact Or.inr ⟨getClassStudentsKey_inj _ _ hk, hx⟩

theorem AddStudent_mem_students_any (st : RedisState) (stu : Student) (cid x : String)
    (h : x ∈ ((AddStudent st stu).1).getSet (getClassStudentsKey cid)) :
    x ∈ st.getSet (getClassStudentsKey cid) ∨ (cid = stu.ClassID ∧ x = stu.ID) := by
  by_cases hv : stu.ID = "" ∨ stu.Name = "" ∨ stu.ClassID = ""
  · rw [AddStudent_state_of_invalid st stu hv] at h
    exact Or.inl h
  · push_neg at hv
    exact AddStudent_mem_students st stu cid x hv.1 hv.2.1 hv.2.2 h

/-! ### Invariant-preservation lemmas -/

theorem AddClass_preserves_inv (st : RedisState) (c : Clazz)
    (hInv : StudentIndexInv st) : StudentIndexInv (AddClass st c).1 := by
  intro cid sid hmem
  rw [AddClass_getSet_students] at hmem
  rcases hInv cid sid hmem with ⟨stuR, hR, hcid⟩
  exact ⟨stuR, by rw [AddClass_GetStudentByID]; exact hR, hcid⟩

theorem AddStudent_preserves_inv (st : RedisState) (stu : Student)
    (hInv : StudentIndexInv st)
    (hcond : ∀ x, stu.ID ∈ st.getSet (getClassStudentsKey x) → x = stu.ClassID) :
    StudentIndexInv (AddStudent st stu).1 := by
  by_cases hv : stu.ID = "" ∨ stu.Name = "" ∨ stu.ClassID = ""
  · rw [AddStudent_state_of_invalid st stu hv]
    exact hInv
  · push_neg at hv
    obtain ⟨h1, h2, h3⟩ := hv
    intro cid sid hmem
    rcases AddStudent_mem_students st stu cid sid h1 h2 h3 hmem with hin | ⟨hcid, hsid⟩
    · by_cases hs : sid = stu.ID
      · subst hs
        have hc := hcond cid hin
        subst hc
        exact ⟨stu, AddStudent_GetStudentByID_self st stu h1 h2 h3, rfl⟩
      · rcases hInv cid sid hin with ⟨stuR, hR, hcid2⟩
        refine ⟨stuR, ?_, hcid2⟩
        rw [AddStudent_GetStudentByID_other st stu sid h1 h2 h3 hs]
        exact hR
    · subst hcid
      subst hsid
      exact ⟨stu, AddStudent_GetStudentByID_self st stu h1 h2 h3, rfl⟩

theorem ensureImportClass_preserves_inv (st : RedisState) (cid : String)
    (hInv : StudentIndexInv st) : StudentIndexInv (ensureImportClass st cid).1 := by
  unfold ensureImportClass
  split
  · exact hInv
  · rcases hp : AddClass st { ID := cid, Name := "Imported Class " ++ cid } with ⟨stA, eA⟩
    have hA : StudentIndexInv stA := by
      have := AddClass_preserves_inv st { ID := cid, Name := "Imported Class " ++ cid } hInv
      rw [hp] at this
      exact this
    cases eA <;> exact hA

theorem ensureImportClass_getSet_students (st : RedisState) (cid x : String) :
    ((ensureImportClass st cid).1).getSet (getClassStudentsKey x)
      = st.getSet (getClassStudentsKey x) := by
  unfold ensureImportClass
  split
  · rfl
  · rcases hp : AddClass st { ID := cid, Name := "Imported Class " ++ cid } with ⟨stA, eA⟩
    have h2 : stA.getSet (getClassStudentsKey x) = st.getSet (getClassStudentsKey x) := by
      have := AddClass_getSet_students st { ID := cid, Name := "Imported Class " ++ cid } x
      rw [hp] at this
      exact this
    cases eA <;> exact h2

theorem rowsToStudents_mem (rs : List (List String)) (cid : String) (stu : Student)
    (h : stu ∈ rowsToStudents rs cid) :
    stu.ID ≠ "" ∧ stu.Name ≠ "" ∧ stu.ClassID = cid := by
  unfold rowsToStudents at h
  rcases List.mem_filterMap.mp h with ⟨row, _, hrow⟩
  by_cases hbad : (row.getD 0 "" == "" || row.getD 1 "" == "") = true
  · rw [if_pos hbad] at hrow
    cases hrow
  · rw [if_neg hbad] at hrow
    injection hrow with h2
    subst h2
    simp only [Bool.or_eq_true, beq_iff_eq] at hbad
    push_neg at hbad
    exact ⟨hbad.1, hbad.2, rfl⟩

theorem addImported_preserves_inv (cid : String) :
    ∀ (l : List Student) (st : RedisState),
      StudentIndexInv st →
      (∀ stu ∈ l, stu.ClassID = cid) →
      (∀ stu ∈ l, ∀ x, stu.ID ∈ st.getSet (getClassStudentsKey x) → x = cid) →
      StudentIndexInv (addImported st l).1 := by
  intro l
  induction l with
  | nil =>
      intro st hInv _ _
      exact hInv
  | cons stu rest ih =>
      intro st hInv hcls hcond
      have hcls0 : stu.ClassID = cid := hcls stu (List.mem_cons_self stu rest)
      have hInv1 : StudentIndexInv (AddStudent st stu).1 := by
        apply AddStudent_preserves_inv st stu hInv
        intro x hx
        rw [hcls0]
        exact hcond stu (List.mem_cons_self stu rest) x hx
      rcases hAS : AddStudent st stu with ⟨st1, e⟩
      have hst1 : st1 = (AddStudent st stu).1 := by rw [hAS]
      have hInv1b : StudentIndexInv st1 := hst1 ▸ hInv1
      have hcls1 : ∀ stu2 ∈ rest, stu2.ClassID = cid :=
        fun s hm => hcls s (List.mem_cons_of_mem _ hm)
      have hcond1 : ∀ stu2 ∈ rest, ∀ x,
          stu2.ID ∈ st1.getSet (getClassStudentsKey x) → x = cid := by
        intro stu2 hm x hx
        rw [hst1] at hx
        rcases AddStudent_mem_students_any st stu x stu2.ID hx with h | ⟨hxc, _⟩
        · exact hcond stu2 (List.mem_cons_of_mem _ hm) x h
        · rw [hxc, hcls0]
      show StudentIndexInv (addImported st (stu :: rest)).1
      unfold addImported
      rw [hAS]
      cases e with
      | none => exact ih st1 hInv1b hcls1 hcond1
      | some msg => exact ih st1 hInv1b hcls1 hcond1

/-! ### Import-pipeline lemmas -/

theorem ensureImportClass_ok (st : RedisState) (cid : String) (hcid : cid ≠ "") :
    (ensureImportClass st cid).2 = none := by
  unfold ensureImportClass
  split
  · rfl
  · rw [AddClass_valid_eq st _ hcid (importPlaceholderName_ne_empty cid)]

theorem ensureImportClass_absent_eq (st : RedisState) (cid : String)
    (hcid : cid ≠ "") (habs : ClassExists st cid = false) :
    ensureImportClass st cid
      = ((AddClass st { ID := cid, Name := "Imported Class " ++ cid }).1, none) := by
  unfold ensureImportClass
  rw [if_neg (by simp [habs])]
  rw [AddClass_valid_eq st _ hcid (importPlaceholderName_ne_empty cid)]

theorem import_format_failure_eq (st : RedisState) (cid : String) (file : ExcelSource)
    (hens : (ensureImportClass st cid).2 = none)
    (hfmt : file.isFormatFailure = true) :
    ImportStudentsFromExcel st file cid
      = ((ensureImportClass st cid).1, 0, some file.formatMsg) := by
  rcases hp : ensureImportClass st cid with ⟨st0, e0⟩
  have he0 : e0 = none := by
    rw [hp] at hens
    exact hens
  subst he0
  unfold ImportStudentsFromExcel
  rw [hp]
  cases file with
  | rows rs => simp [ExcelSource.isFormatFailure] at hfmt
  | openFailed => rfl
  | noSheets => rfl
  | rowsFailed sn => rfl

theorem addImported_all_valid :
    ∀ (l : List Student) (st : RedisState),
      (∀ stu ∈ l, stu.ID ≠ "" ∧ stu.Name ≠ "" ∧ stu.ClassID ≠ "") →
      (addImported st l).2 = l.length := by
  intro l
  induction l with
  | nil => intro st _; rfl
  | cons stu rest ih =>
      intro st hv
      have h0 := hv stu (List.mem_cons_self stu rest)
      have he : (AddStudent st stu).2 = none := by
        cases h : (AddStudent st stu).2 with
        | none => rfl
        | some e =>
            exfalso
            have := (AddStudent_snd_isSome st stu).mp (by rw [h]; rfl)
            rcases this with hbad | hbad | hbad
            · exact h0.1 hbad
            · exact h0.2.1 hbad
            · exact h0.2.2 hbad
      rcases hAS : AddStudent st stu with ⟨st1, e⟩
      have he0 : e = none := by
        rw [hAS] at he
        exact he
      subst he0
      unfold addImported
      rw [hAS]
      simp only
      rw [ih st1 (fun s hm => hv s (List.mem_cons_of_mem _ hm))]
      rfl

theorem length_filterMap_if {α β : Type} (l : List α) (p : α → Bool) (g : α → β) :
    (l.filterMap (fun a => if p a then none else some (g a))).length
      = (l.filter (fun a => !(p a))).length := by
  induction l with
  | nil => rfl
  | cons a t ih =>
      by_cases h : p a = true
      · simp [List.filterMap_cons, List.filter_cons, h, ih]
      · simp [List.filterMap_cons, List.filter_cons, h, ih]

theorem rowsToStudents_length (rs : List (List String)) (cid : String) :
    (rowsToStudents rs cid).length
      = ((rs.drop 1).filter
          (fun row => !(row.getD 0 "" == "" || row.getD 1 "" == ""))).length := by
  unfold rowsToStudents
  exact length_filterMap_if (rs.drop 1)
    (fun row => row.getD 0 "" == "" || row.getD 1 "" == "")
    (fun row => ({ ID := row.getD 0 "", Name := row.getD 1 "", ClassID := cid } : Student))

/-! ### Claim theorems -/

/-- Claim C1: for every student record with non-empty id, name, and classId
whose classId is not in the global class set, `AddStudent` succeeds,
auto-creates the placeholder class with id = classId and
name = `"Class " + classId`, and afterwards the class record and the student
record both exist and the class's student set contains the student's ID. -/
theorem c1_addStudent_autocreates_class (st : RedisState) (stu : Student)
    (h1 : stu.ID ≠ "") (h2 : stu.Name ≠ "") (h3 : stu.ClassID ≠ "")
    (habs : ClassExists st stu.ClassID = false) :
    (AddStudent st stu).2 = none ∧
    GetClassByID (AddStudent st stu).1 stu.ClassID
      = some { ID := stu.ClassID, Name := "Class " ++ stu.ClassID } ∧
    GetStudentByID (AddStudent st stu).1 stu.ID = some stu ∧
    stu.ID ∈ smembers (AddStudent st stu).1 (getClassStudentsKey stu.ClassID) := by
  refine ⟨?_, ?_, ?_, ?_⟩
  · rw [AddStudent_valid_eq st stu h1 h2 h3]
  · rw [AddStudent_GetClassByID st stu stu.ClassID h1 h2 h3]
    unfold stepClass
    rw [if_neg (by simp [habs])]
    exact AddClass_GetClassByID_self st _ h3 (classPlaceholderName_ne_empty stu.ClassID)
  · exact AddStudent_GetStudentByID_self st stu h1 h2 h3
  · exact AddStudent_mem_students_self st stu h1 h2 h3

/-- Witness for C1 at a concrete input: adding student `s1` to the absent
class `c1` creates the placeholder class and the student record. -/
theorem c1_witness :
    ("s1" : String) ≠ "" ∧ ("Alice" : String) ≠ "" ∧ ("c1" : String) ≠ "" ∧
    ClassExists emptyState "c1" = false ∧
    ((AddStudent emptyState { ID := "s1", Name := "Alice", ClassID := "c1" }).2 = none ∧
     GetClassByID (AddStudent emptyState { ID := "s1", Name := "Alice", ClassID := "c1" }).1 "c1"
       = some { ID := "c1", Name := "Class " ++ "c1" } ∧
     GetStudentByID (AddStudent emptyState { ID := "s1", Name := "Alice", ClassID := "c1" }).1 "s1"
       = some { ID := "s1", Name := "Alice", ClassID := "c1" } ∧
     ("s1" : String) ∈ smembers
       (AddStudent emptyState { ID := "s1", Name := "Alice", ClassID := "c1" }).1
       (getClassStudentsKey "c1")) :=
  ⟨by decide, by decide, by decide, by decide,
   c1_addStudent_autocreates_class emptyState
     { ID := "s1", Name := "Alice", ClassID := "c1" }
     (by decide) (by decide) (by decide) (by decide)⟩

/-- Claim C2: `AddClass` errors exactly when the class's id or name is
empty, `AddStudent` errors exactly when the student's id, name, or classId
is empty, and in each such case the database state is unchanged (the
validation check runs before any backend access). -/
theorem c2_validation_rejects_without_touching_backend
    (st : RedisState) (c : Clazz) (stu : Student) :
    ((AddClass st c).2.isSome = true ↔ (c.ID = "" ∨ c.Name = "")) ∧
    ((c.ID = "" ∨ c.Name = "") → (AddClass st c).1 = st) ∧
    ((AddStudent st stu).2.isSome = true ↔
      (stu.ID = "" ∨ stu.Name = "" ∨ stu.ClassID = "")) ∧
    ((stu.ID = "" ∨ stu.Name = "" ∨ stu.ClassID = "") → (AddStudent st stu).1 = st) :=
  ⟨AddClass_snd_isSome st c, AddClass_state_of_invalid st c,
   AddStudent_snd_isSome st stu, AddStudent_state_of_invalid st stu⟩

/-- Witness for C2 at concrete inputs: a class with empty name and a student
with empty classId are rejected and the state is unchanged. -/
theorem c2_witness :
    (AddClass emptyState { ID := "c1", Name := "" }).2.isSome = true ∧
    (AddClass emptyState { ID := "c1", Name := "" }).1 = emptyState ∧
    (AddStudent emptyState { ID := "s1", Name := "Bob", ClassID := "" }).2.isSome = true ∧
    (AddStudent emptyState { ID := "s1", Name := "Bob", ClassID := "" }).1 = emptyState :=
  ⟨(c2_validation_rejects_without_touching_backend emptyState
      { ID := "c1", Name := "" } { ID := "s1", Name := "Bob", ClassID := "" }).1.mpr
    (by decide),
   (c2_validation_rejects_without_touching_backend emptyState
      { ID := "c1", Name := "" } { ID := "s1", Name := "Bob", ClassID := "" }).2.1
    (by decide),
   (c2_validation_rejects_without_touching_backend emptyState
      { ID := "c1", Name := "" } { ID := "s1", Name := "Bob", ClassID := "" }).2.2.1.mpr
    (by decide),
   (c2_validation_rejects_without_touching_backend emptyState
      { ID := "c1", Name := "" } { ID := "s1", Name := "Bob", ClassID := "" }).2.2.2
    (by decide)⟩

/-- Claim C3: for every class with non-empty id and name, `AddClass`
succeeds and an immediately following `GetClassByID` on the same id returns
a found result equal to the added class, field for field. -/
theorem c3_addClass_getClass_roundtrip (st : RedisState) (c : Clazz)
    (hid : c.ID ≠ "") (hname : c.Name ≠ "") :
    (AddClass st c).2 = none ∧ GetClassByID (AddClass st c).1 c.ID = some c := by
  constructor
  · rw [AddClass_valid_eq st c hid hname]
  · exact AddClass_GetClassByID_self st c hid hname

/-- Witness for C3 at a concrete input. -/
theorem c3_witness :
    ("c9" : String) ≠ "" ∧ ("Math" : String) ≠ "" ∧
    ((AddClass emptyState { ID := "c9", Name := "Math" }).2 = none ∧
     GetClassByID (AddClass emptyState { ID := "c9", Name := "Math" }).1 "c9"
       = some { ID := "c9", Name := "Math" }) :=
  ⟨by decide, by decide,
   c3_addClass_getClass_roundtrip emptyState { ID := "c9", Name := "Math" }
     (by decide) (by decide)⟩

/-- Claim C8: `GetAllClasses` and `GetStudentsByClassID` always return an
empty collection (they are total, collection-valued functions) when nothing
matches — including `GetStudentsByClassID` on a class that does not exist,
whose student-set key is then absent and reads as the empty set — and an ID
in the index that does not resolve to a record is skipped: every ID that
does resolve still contributes its record to the listing. -/
theorem c8_listings_empty_and_skip_unresolvable (st : RedisState) (cid : String) :
    (st.getSet (getClassStudentsKey cid) = [] → GetStudentsByClassID st cid = []) ∧
    (st.getSet classesKey = [] → GetAllClasses st = []) ∧
    (∀ sid ∈ smembers st (getClassStudentsKey cid), ∀ stu : Student,
      GetStudentByID st sid = some stu → stu ∈ GetStudentsByClassID st cid) ∧
    (∀ id2 ∈ smembers st classesKey, ∀ c : Clazz,
      GetClassByID st id2 = some c → c ∈ GetAllClasses st) := by
  refine ⟨?_, ?_, ?_, ?_⟩
  · intro h
    unfold GetStudentsByClassID smembers
    rw [h]
    rfl
  · intro h
    unfold GetAllClasses smembers
    rw [h]
    rfl
  · intro sid hsid stu hstu
    unfold GetStudentsByClassID
    exact List.mem_filterMap.mpr ⟨sid, hsid, hstu⟩
  · intro id2 hid2 c hc
    unfold GetAllClasses
    exact List.mem_filterMap.mpr ⟨id2, hid2, hc⟩

/-- Witness for C8: on the empty database both listings are empty, and in
`danglingState` (whose indexes contain the unresolvable ID `ghost`) the
resolvable class and student still appear in the listings. -/
theorem c8_witness :
    GetStudentsByClassID emptyState "c1" = [] ∧
    GetAllClasses emptyState = [] ∧
    ({ ID := "s1", Name := "A", ClassID := "c1" } : Student) ∈
      GetStudentsByClassID danglingState "c1" ∧
    ({ ID := "c1", Name := "M" } : Clazz) ∈ GetAllClasses danglingState :=
  ⟨(c8_listings_empty_and_skip_unresolvable emptyState "c1").1 (by decide),
   (c8_listings_empty_and_skip_unresolvable emptyState "c1").2.1 (by decide),
   (c8_listings_empty_and_skip_unresolvable danglingState "c1").2.2.1 "s1"
     (by decide) _ (by decide),
   (c8_listings_empty_and_skip_unresolvable danglingState "c1").2.2.2 "c1"
     (by decide) _ (by decide)⟩

/-- Claim C9: the backend key scheme is exactly the fixed key `"classes"`
for the global class set, `"class:" + id` for class records,
`"class:" + id + ":students"` for per-class student sets, and
`"student:" + id` for student records; and no class-derived key ever equals
a student-record key (for all IDs, in particular all non-empty ones). -/
theorem c9_key_scheme_and_disjointness (a b : String) :
    classesKey = "classes" ∧
    getClassInfoKey a = "class:" ++ a ∧
    getClassStudentsKey a = "class:" ++ a ++ ":students" ∧
    getStudentInfoKey b = "student:" ++ b ∧
    getClassInfoKey a ≠ getStudentInfoKey b ∧
    getClassStudentsKey a ≠ getStudentInfoKey b ∧
    classesKey ≠ getStudentInfoKey b :=
  ⟨rfl, rfl, rfl, rfl, getClassInfoKey_ne_getStudentInfoKey a b,
   getClassStudentsKey_ne_getStudentInfoKey a b, classesKey_ne_getStudentInfoKey b⟩

/-- Counterexample to claim C4 as stated: in the reachable state
`reAddState2` (student `s1` added to class `A`, then re-added under class
`B`), class `A`'s student set is non-empty, yet `GetRandomStudent` on `A`
returns a student whose `classId` is `"B"`, not the queried `"A"`. -/
theorem c4_counterexample :
    (smembers reAddState2 (getClassStudentsKey "A")).length = 1 ∧
    GetRandomStudent reAddState2 "A" 0
      = some { ID := "s1", Name := "n", ClassID := "B" } ∧
    ("B" : String) ≠ "A" := by
  decide

/-- Claim C4 (amended): `GetRandomStudent` returns the non-error absent
result whenever the class's student set is empty or its key is absent (a
class that does not exist has no student-set key); and whenever the set is
non-empty AND every member of the set is a non-empty ID resolving to a
student record whose `classId` equals the queried class ID (which re-adding
an ID under a different class can break), it returns some student record
whose `classId` equals the queried class ID. -/
theorem c4_amended_random_student (st : RedisState) (cid : String) (r : Nat) :
    (st.getSet (getClassStudentsKey cid) = [] → GetRandomStudent st cid r = none) ∧
    (classSetResolves st cid = true → st.getSet (getClassStudentsKey cid) ≠ [] →
      ∃ stu : Student, GetRandomStudent st cid r = some stu ∧ stu.ClassID = cid) := by
  constructor
  · intro h
    simp only [GetRandomStudent, srandmember]
    rw [h]
    rfl
  · intro hres hne
    have hlen : 0 < (st.getSet (getClassStudentsKey cid)).length :=
      List.length_pos.mpr hne
    have hidx := Nat.mod_lt r hlen
    have hmem := getD_mem_of_lt (st.getSet (getClassStudentsKey cid))
      (r % (st.getSet (getClassStudentsKey cid)).length) "" hidx
    unfold classSetResolves at hres
    have hall := List.all_eq_true.mp hres _ hmem
    simp only [GetRandomStudent, srandmember]
    rw [if_neg (by simp [List.isEmpty_iff, hne])]
    simp only
    revert hall
    cases hGet : GetStudentByID st
        ((st.getSet (getClassStudentsKey cid)).getD
          (r % (st.getSet (getClassStudentsKey cid)).length) "") with
    | none =>
        intro hall
        simp at hall
    | some stu =>
        intro hall
        rw [Bool.and_eq_true] at hall
        have h1 : ¬ ((st.getSet (getClassStudentsKey cid)).getD
            (r % (st.getSet (getClassStudentsKey cid)).length) "" = "") := by
          intro heq
          rw [heq] at hall
          exact absurd hall.1 (by decide)
        rw [if_neg h1]
        refine ⟨stu, rfl, ?_⟩
        have h2 := hall.2
        simpa [beq_iff_eq] using h2

/-- Witness for the amended C4: on the empty database the random pick is
absent; in `reAddState1` (one student in class `A`, index resolvable) it
returns a student of class `A`. -/
theorem c4_witness :
    (emptyState.getSet (getClassStudentsKey "Z") = [] ∧
     GetRandomStudent emptyState "Z" 5 = none) ∧
    (classSetResolves reAddState1 "A" = true ∧
     reAddState1.getSet (getClassStudentsKey "A") ≠ [] ∧
     ∃ stu : Student, GetRandomStudent reAddState1 "A" 3 = some stu ∧
       stu.ClassID = "A") :=
  ⟨⟨by decide, (c4_amended_random_student emptyState "Z" 5).1 (by decide)⟩,
   ⟨by decide, by decide,
    (c4_amended_random_student reAddState1 "A" 3).2 (by decide) (by decide)⟩⟩

/-- Counterexample to claim C5 as stated: the student-index invariant holds
in `reAddState1`, and `AddStudent` re-adding student ID `s1` under the
different class `B` breaks it (class `A`'s set still holds `s1`, whose
record now has `classId = "B"`), so the invariant is not preserved by every
store operation. -/
theorem c5_counterexample :
    StudentIndexInv reAddState1 ∧
    reAddState2 = (AddStudent reAddState1 { ID := "s1", Name := "n", ClassID := "B" }).1 ∧
    ¬ StudentIndexInv reAddState2 := by
  refine ⟨?_, rfl, ?_⟩
  · intro cid sid hmem
    by_cases hA : cid = "A"
    · subst hA
      have hset : reAddState1.getSet (getClassStudentsKey "A") = ["s1"] := by decide
      rw [hset] at hmem
      have hsid : sid = "s1" := by simpa using hmem
      subst hsid
      exact ⟨{ ID := "s1", Name := "n", ClassID := "A" }, by decide, rfl⟩
    · exfalso
      have hsets : reAddState1.sets = [("classes", ["A"]), ("class:A:students", ["s1"])] := by
        decide
      have hkey1 : ¬ (("classes" : String) = getClassStudentsKey cid) :=
        classesKey_ne_getClassStudentsKey cid
      have hkey2 : ¬ (("class:A:students" : String) = getClassStudentsKey cid) := by
        intro h
        have he : getClassStudentsKey "A" = getClassStudentsKey cid := by
          rw [show getClassStudentsKey "A" = "class:A:students" from by decide]
          exact h
        exact hA (getClassStudentsKey_inj "A" cid he).symm
      have hempty : reAddState1.getSet (getClassStudentsKey cid) = [] := by
        show (alookup reAddState1.sets (getClassStudentsKey cid)).getD [] = []
        rw [hsets]
        simp only [alookup]
        rw [if_neg hkey1, if_neg hkey2]
        rfl
      rw [hempty] at hmem
      simp at hmem
  · intro hInv
    rcases hInv "A" "s1" (by decide) with ⟨stu, heq, hcid⟩
    rw [show GetStudentByID reAddState2 "s1"
        = some { ID := "s1", Name := "n", ClassID := "B" } from by decide] at heq
    injection heq with h3
    rw [← h3] at hcid
    exact absurd hcid (by decide)

/-- Claim C5 (amended): the student-index invariant — every student ID in a
class's student set has a record whose `classId` equals that class's ID —
is preserved by `AddClass` always, and by `AddStudent` and the import
pipeline provided the student IDs being written do not already appear in
the student set of a different class (re-adding an existing ID under a
different classId breaks the invariant, as the old class's set keeps the
ID while the record's `classId` is overwritten). -/
theorem c5_amended_invariant_preservation (st : RedisState) (c : Clazz)
    (stu : Student) (file : ExcelSource) (cid : String) :
    (StudentIndexInv st → StudentIndexInv (AddClass st c).1) ∧
    (StudentIndexInv st →
      (∀ x, stu.ID ∈ st.getSet (getClassStudentsKey x) → x = stu.ClassID) →
      StudentIndexInv (AddStudent st stu).1) ∧
    (StudentIndexInv st →
      (∀ stu2 ∈ rowsToStudents file.rowData cid, ∀ x,
        stu2.ID ∈ st.getSet (getClassStudentsKey x) → x = cid) →
      StudentIndexInv (ImportStudentsFromExcel st file cid).1) := by
  refine ⟨AddClass_preserves_inv st c, AddStudent_preserves_inv st stu, ?_⟩
  intro hInv hcond
  unfold ImportStudentsFromExcel
  rcases hp : ensureImportClass st cid with ⟨st0, e0⟩
  have hst0 : st0 = (ensureImportClass st cid).1 := by rw [hp]
  have hInv0 : StudentIndexInv st0 := by
    rw [hst0]
    exact ensureImportClass_preserves_inv st cid hInv
  cases e0 with
  | some e => exact hInv0
  | none =>
      cases file with
      | rows rs =>
          simp only
          apply addImported_preserves_inv cid (rowsToStudents rs cid) st0 hInv0
          · intro s hm
            exact (rowsToStudents_mem rs cid s hm).2.2
          · intro s hm x hx
            rw [hst0, ensureImportClass_getSet_students] at hx
            exact hcond s hm x hx
      | openFailed => exact hInv0
      | noSheets => exact hInv0
      | rowsFailed sn => exact hInv0

/-- Witness for the amended C5: starting from the empty database (where the
invariant holds and no ID appears in any set), each of the three operations
preserves the invariant. -/
theorem c5_witness :
    StudentIndexInv emptyState ∧
    StudentIndexInv (AddClass emptyState { ID := "c1", Name := "M" }).1 ∧
    StudentIndexInv (AddStudent emptyState { ID := "s1", Name := "n", ClassID := "A" }).1 ∧
    StudentIndexInv (ImportStudentsFromExcel emptyState
      (.rows [["id", "name"], ["1", "x"]]) "C1").1 := by
  have hEmpty : StudentIndexInv emptyState := by
    intro cid sid h
    simp [RedisState.getSet, emptyState, alookup] at h
  have hNoMem : ∀ sid x : String, sid ∈ emptyState.getSet (getClassStudentsKey x) → False := by
    intro sid x h
    simp [RedisState.getSet, emptyState, alookup] at h
  refine ⟨hEmpty, ?_, ?_, ?_⟩
  · exact (c5_amended_invariant_preservation emptyState { ID := "c1", Name := "M" }
      { ID := "s1", Name := "n", ClassID := "A" }
      (.rows [["id", "name"], ["1", "x"]]) "C1").1 hEmpty
  · exact (c5_amended_invariant_preservation emptyState { ID := "c1", Name := "M" }
      { ID := "s1", Name := "n", ClassID := "A" }
      (.rows [["id", "name"], ["1", "x"]]) "C1").2.1 hEmpty
      (fun x hx => absurd hx (fun h => hNoMem _ x h))
  · exact (c5_amended_invariant_preservation emptyState { ID := "c1", Name := "M" }
      { ID := "s1", Name := "n", ClassID := "A" }
      (.rows [["id", "name"], ["1", "x"]]) "C1").2.2 hEmpty
      (fun _ _ x hx => absurd hx (fun h => hNoMem _ x h))

/-- Claim C6: for a parseable source with a non-empty target class ID (so
every candidate submission succeeds), the import skips the header row,
reads column 0 as the ID and column 1 as the name with missing cells as
`""`, skips rows with empty ID or name without failing, and returns a
count equal to the number of data rows minus the number of skipped rows. -/
theorem c6_import_row_semantics_and_count (st : RedisState) (rs : List (List String))
    (cid : String) (hcid : cid ≠ "") :
    (ImportStudentsFromExcel st (.rows rs) cid).2.2 = none ∧
    (ImportStudentsFromExcel st (.rows rs) cid).2.1 =
      (rs.drop 1).length -
        ((rs.drop 1).filter
          (fun row => row.getD 0 "" == "" || row.getD 1 "" == "")).length := by
  have hens := ensureImportClass_ok st cid hcid
  rcases hp : ensureImportClass st cid with ⟨st0, e0⟩
  have he0 : e0 = none := by
    rw [hp] at hens
    exact hens
  subst he0
  unfold ImportStudentsFromExcel
  rw [hp]
  simp only
  refine ⟨trivial, ?_⟩
  have hvalid : ∀ s ∈ rowsToStudents rs cid, s.ID ≠ "" ∧ s.Name ≠ "" ∧ s.ClassID ≠ "" := by
    intro s hm
    obtain ⟨ha, hb, hc⟩ := rowsToStudents_mem rs cid s hm
    exact ⟨ha, hb, by rw [hc]; exact hcid⟩
  rw [addImported_all_valid (rowsToStudents rs cid) st0 hvalid]
  rw [rowsToStudents_length]
  have hpart : ((rs.drop 1).filter
        (fun row => row.getD 0 "" == "" || row.getD 1 "" == "")).length +
      ((rs.drop 1).filter
        (fun row => !(row.getD 0 "" == "" || row.getD 1 "" == ""))).length
      = (rs.drop 1).length :=
    (List.length_eq_length_filter_add _).symm
  omega

/-- Witness for C6: a sheet with one header row, two complete data rows and
one row with an empty name imports a count of 3 − 1 = 2 with no error. -/
theorem c6_witness :
    ("C1" : String) ≠ "" ∧
    ((ImportStudentsFromExcel emptyState
        (.rows [["id", "name"], ["1", "x"], ["2", ""], ["3", "y"]]) "C1").2.2 = none ∧
     (ImportStudentsFromExcel emptyState
        (.rows [["id", "name"], ["1", "x"], ["2", ""], ["3", "y"]]) "C1").2.1 =
      ([["id", "name"], ["1", "x"], ["2", ""], ["3", "y"]].drop 1).length -
        (([["id", "name"], ["1", "x"], ["2", ""], ["3", "y"]].drop 1).filter
          (fun row => row.getD 0 "" == "" || row.getD 1 "" == "")).length) :=
  ⟨by decide,
   c6_import_row_semantics_and_count emptyState
     [["id", "name"], ["1", "x"], ["2", ""], ["3", "y"]] "C1" (by decide)⟩

/-- Claim C7: when the class-existence step succeeds (non-empty class ID or
class already present) and the source cannot be opened, has no sheets, or
its rows cannot be read, the import returns count 0 together with the
format error of that failure, and performs no submission: the resulting
state is exactly the state after the class-existence step. -/
theorem c7_format_error_before_submission (st : RedisState) (cid : String)
    (file : ExcelSource)
    (hok : cid ≠ "" ∨ ClassExists st cid = true)
    (hfmt : file.isFormatFailure = true) :
    ImportStudentsFromExcel st file cid
      = ((ensureImportClass st cid).1, 0, some file.formatMsg) := by
  have hens : (ensureImportClass st cid).2 = none := by
    rcases hok with hcid | hex
    · exact ensureImportClass_ok st cid hcid
    · unfold ensureImportClass
      rw [if_pos hex]
  exact import_format_failure_eq st cid file hens hfmt

/-- Witness for C7: importing an unopenable source into class `C1` on the
empty database yields count 0 and the open-failure format error. -/
theorem c7_witness :
    (("C1" : String) ≠ "" ∨ ClassExists emptyState "C1" = true) ∧
    ExcelSource.isFormatFailure ExcelSource.openFailed = true ∧
    ImportStudentsFromExcel emptyState ExcelSource.openFailed "C1"
      = ((ensureImportClass emptyState "C1").1, 0,
         some (ExcelSource.formatMsg ExcelSource.openFailed)) :=
  ⟨Or.inl (by decide), rfl,
   c7_format_error_before_submission emptyState "C1" ExcelSource.openFailed
     (Or.inl (by decide)) rfl⟩

/-- Claim C10 (implicit): when the import target class is absent,
the importer creates it before opening the file, so on a format failure the call
returns count 0 with an error, yet the auto-created class record
(`name = "Imported Class " + classId`) and its entry in the global class
set persist — the state is not unchanged on that path. -/
theorem c10_import_autocreated_class_persists (st : RedisState) (cid : String)
    (file : ExcelSource) (hcid : cid ≠ "") (habs : ClassExists st cid = false)
    (hfmt : file.isFormatFailure = true) :
    (ImportStudentsFromExcel st file cid).2.1 = 0 ∧
    ((ImportStudentsFromExcel st file cid).2.2).isSome = true ∧
    GetClassByID (ImportStudentsFromExcel st file cid).1 cid
      = some { ID := cid, Name := "Imported Class " ++ cid } ∧
    cid ∈ ((ImportStudentsFromExcel st file cid).1).getSet classesKey ∧
    (ImportStudentsFromExcel st file cid).1 ≠ st := by
  have hshape := ensureImportClass_absent_eq st cid hcid habs
  have hens : (ensureImportClass st cid).2 = none := by
    rw [hshape]
  have himp := import_format_failure_eq st cid file hens hfmt
  rw [himp, hshape]
  have hmem := AddClass_mem_classes st { ID := cid, Name := "Imported Class " ++ cid }
    hcid (importPlaceholderName_ne_empty cid)
  refine ⟨rfl, rfl, ?_, hmem, ?_⟩
  · exact AddClass_GetClassByID_self st { ID := cid, Name := "Imported Class " ++ cid }
      hcid (importPlaceholderName_ne_empty cid)
  · intro heq
    have habs2 : cid ∉ st.getSet classesKey := by
      simpa [ClassExists, sismember] using habs
    rw [heq] at hmem
    exact habs2 hmem

/-- Witness for C10: importing an unopenable source into the absent class
`C1` from the empty database leaves the auto-created class behind. -/
theorem c10_witness :
    ("C1" : String) ≠ "" ∧ ClassExists emptyState "C1" = false ∧
    ExcelSource.isFormatFailure ExcelSource.openFailed = true ∧
    ((ImportStudentsFromExcel emptyState ExcelSource.openFailed "C1").2.1 = 0 ∧
     ((ImportStudentsFromExcel emptyState ExcelSource.openFailed "C1").2.2).isSome = true ∧
     GetClassByID (ImportStudentsFromExcel emptyState ExcelSource.openFailed "C1").1 "C1"
       = some { ID := "C1", Name := "Imported Class " ++ "C1" } ∧
     ("C1" : String) ∈
       ((ImportStudentsFromExcel emptyState ExcelSource.openFailed "C1").1).getSet classesKey ∧
     (ImportStudentsFromExcel emptyState ExcelSource.openFailed "C1").1 ≠ emptyState) :=
  ⟨by decide, by decide, rfl,
   c10_import_autocreated_class_persists emptyState "C1" ExcelSource.openFailed
     (by decide) (by decide) rfl⟩
